import Mathlib

/-!
Verification development for a multi-exchange market-data websocket client
library.  The code under verification consists of three exchange clients
(Binance, Bittrex, Bitfinex) that multiplex logical subscriptions over one
physical socket, normalize inbound wire frames into Trade / Level2 / Level3
records, and manage reconnection.  Each definition below is a shallow
embedding of the corresponding JavaScript function; JavaScript `Map` objects
are embedded as insertion-ordered association lists, JavaScript plain objects
used as counters as total functions with an explicit absent/NaN value, and
timers as explicit pending flags or scheduled fire times.
-/

set_option maxRecDepth 4096

/-- A subscription target as supplied by the caller: `{id, base, quote}`. -/
structure Market where
  id : String
  base : String
  quote : String
deriving DecidableEq, Repr

/-- A JavaScript `Map` key as used by the clients.  Subscription maps are
keyed by strings (the remote id), but `BinanceClient._unsubscribe` passes the
`Market` object itself to `Map.delete`; under JavaScript SameValueZero
semantics an object key is never equal to a string key, which this sum type
captures: a `.str` key and a `.obj` key never compare equal. -/
inductive JsKey where
  | str (s : String)
  | obj (m : Market)
deriving DecidableEq, Repr

/-- Membership test: JavaScript `Map.prototype.has`. -/
def hasKey {α β : Type} [DecidableEq α] : List (α × β) → α → Bool
  | [], _ => false
  | p :: rest, k => if p.1 = k then true else hasKey rest k

/-- Lookup: JavaScript `Map.prototype.get` (returns `undefined` as `none`). -/
def getKey {α β : Type} [DecidableEq α] : List (α × β) → α → Option β
  | [], _ => none
  | p :: rest, k => if p.1 = k then some p.2 else getKey rest k

/-- Insertion: JavaScript `Map.prototype.set` — replaces in place when the
key is present, appends at the end otherwise (insertion order preserved). -/
def setKey {α β : Type} [DecidableEq α] : List (α × β) → α → β → List (α × β)
  | [], k, v => [(k, v)]
  | p :: rest, k, v => if p.1 = k then (k, v) :: rest else p :: setKey rest k v

/-- Removal: JavaScript `Map.prototype.delete`. -/
def delKey {α β : Type} [DecidableEq α] : List (α × β) → α → List (α × β)
  | [], _ => []
  | p :: rest, k => if p.1 = k then rest else p :: delKey rest k

/-- The keys of a map, in insertion order (`Map.prototype.keys`). -/
def keysOf {α β : Type} (l : List (α × β)) : List α := l.map (fun p => p.1)

/-- The string keys of a `JsKey`-keyed map (subscribe only ever inserts
string keys, so this is `Map.prototype.keys` for the Binance maps). -/
def strKeys {β : Type} (l : List (JsKey × β)) : List String :=
  l.filterMap (fun p => match p.1 with | JsKey.str s => some s | JsKey.obj _ => none)

/-- A JavaScript numeric counter slot: `none` models both `undefined`
(missing object property) and `NaN` (the result of arithmetic on
`undefined`); both are falsy and both satisfy `x || 0 === 0`. -/
def JsNum : Type := Option Int
deriving DecidableEq

/-- JavaScript `x || 0` on a counter slot. -/
def jsOr0 : JsNum → Int
  | none => 0
  | some x => x

/-- JavaScript truthiness of a counter slot (`undefined`/`NaN`/`0` falsy). -/
def jsTruthy : JsNum → Bool
  | none => false
  | some x => x != 0

/-- JavaScript `String.prototype.toLowerCase` for the ASCII identifiers the
clients handle (character-wise lowercasing). -/
def jsToLower (s : String) : String := String.mk (s.data.map Char.toLower)

/-- JavaScript `String.prototype.endsWith`. -/
def jsEndsWith (s suffix : String) : Bool :=
  List.isPrefixOf suffix.data.reverse s.data.reverse

/-- Split a character list at every occurrence of a separator character
(JavaScript `String.prototype.split` with a one-character separator). -/
def splitOnChar (c : Char) : List Char → List (List Char)
  | [] => [[]]
  | ch :: rest =>
    let r := splitOnChar c rest
    if ch = c then [] :: r
    else
      match r with
      | h :: t => (ch :: h) :: t
      | [] => [[ch]]

/-! ## Normalized record types

The record classes live in `src/types/*.js`, which is not part of the source
tree under verification (only `ticker.js` is present); their constructors
simply copy the supplied fields.  They are modelled from the spec. -/

/-- Modelled from the spec: a Level2Point `{price, size, optional
orderCount}` plus the optional adapter metadata (`{type}` for Bittrex).
The constructor copies the fields it is given; absent arguments are
`undefined`, embedded as `none`. -/
structure L2PointRec where
  price : String
  size : String
  count : Option String
  metaType : Option Nat
deriving DecidableEq, Repr

/-- Modelled from the spec: a Level2Snapshot record `{exchange, base, quote,
sequenceId, optional lastSequenceId, bids, asks}`; fields not passed to the
constructor are `undefined` (`none`). -/
structure Level2SnapshotRec where
  exchange : String
  base : String
  quote : String
  sequenceId : Option Nat
  lastSequenceId : Option Nat
  asks : List L2PointRec
  bids : List L2PointRec
deriving DecidableEq, Repr

/-- Modelled from the spec: a Level2Update record, same shape as a
Level2Snapshot (a distinct class on the wire model). -/
structure Level2UpdateRec where
  exchange : String
  base : String
  quote : String
  sequenceId : Option Nat
  lastSequenceId : Option Nat
  asks : List L2PointRec
  bids : List L2PointRec
deriving DecidableEq, Repr

/-- A constructed level-2 record: either a `Level2Snapshot` instance or a
`Level2Update` instance.  Which class the adapter instantiates is exactly
what claim C4 is about. -/
inductive L2Rec where
  | snap (r : Level2SnapshotRec)
  | upd (r : Level2UpdateRec)
deriving DecidableEq, Repr

/-- Whether a constructed record is a `Level2Update` instance. -/
def L2Rec.isUpd : L2Rec → Bool
  | L2Rec.upd _ => true
  | L2Rec.snap _ => false

/-- Whether a constructed record is a `Level2Snapshot` instance. -/
def L2Rec.isSnap : L2Rec → Bool
  | L2Rec.snap _ => true
  | L2Rec.upd _ => false

/-- Modelled from the spec: the Trade record as constructed by
`BinanceClient._constructTradeFromMessage` (price and amount are the raw
JSON strings, the trade id the exchange-assigned number). -/
structure BncTradeRec where
  exchange : String
  base : String
  quote : String
  tradeId : Nat
  unix : Nat
  side : String
  price : String
  amount : String
deriving DecidableEq, Repr

/-! ## BinanceClient

Embedding of `src/src/exchanges/binance/binance-client.js`.  The socket is a
boolean (`SmartWss` instance present or not), the debounce timer a pending
flag (its quantitative behaviour is modelled separately by
`binanceDebounceFires`), and the three subscription `Map`s association lists
keyed by `JsKey`. -/

/-- The mutable state of a `BinanceClient`. -/
structure BncState where
  tradeSubs : List (JsKey × Market)
  l2SnapshotSubs : List (JsKey × Market)
  l2UpdateSubs : List (JsKey × Market)
  wss : Bool
  reconnectDebounce : Bool
  connStreams : List String

/-- A freshly constructed `BinanceClient`. -/
def bncInit : BncState :=
  { tradeSubs := [], l2SnapshotSubs := [], l2UpdateSubs := [],
    wss := false, reconnectDebounce := false, connStreams := [] }

/-- The three channel kinds a `BinanceClient` supports (which subscription
map the generic `_subscribe`/`_unsubscribe` receive). -/
inductive BncChan where
  | trades
  | l2snap
  | l2upd
deriving DecidableEq, Repr

/-- The subscription map for a channel kind. -/
def BncState.mapOf (s : BncState) : BncChan → List (JsKey × Market)
  | BncChan.trades => s.tradeSubs
  | BncChan.l2snap => s.l2SnapshotSubs
  | BncChan.l2upd => s.l2UpdateSubs

/-- Replace the subscription map for a channel kind. -/
def BncState.withMap (s : BncState) : BncChan → List (JsKey × Market) → BncState
  | BncChan.trades, m => { s with tradeSubs := m }
  | BncChan.l2snap, m => { s with l2SnapshotSubs := m }
  | BncChan.l2upd, m => { s with l2UpdateSubs := m }

/-- `BinanceClient._reconnect`: clears any pending debounce timer and
schedules a fresh one (a single pending timer; re-arming supersedes). -/
def binanceReconnectOp (s : BncState) : BncState :=
  { s with reconnectDebounce := true }

/-- `BinanceClient._subscribe(market, msg, map)`: keys the map by the
lowercased remote id; a no-op when the key is already present, otherwise
inserts and schedules the debounced reconnect. -/
def binanceSubscribe (c : BncChan) (m : Market) (s : BncState) : BncState :=
  let remote_id := jsToLower m.id
  let map := s.mapOf c
  if hasKey map (JsKey.str remote_id) then s
  else binanceReconnectOp (s.withMap c (setKey map (JsKey.str remote_id) m))

/-- `BinanceClient._unsubscribe(market, msg, map)`: when the lowercased
remote id is present the source executes `map.delete(market)` — the delete
argument is the `Market` object, not the string key — and schedules the
debounced reconnect. -/
def binanceUnsubscribe (c : BncChan) (m : Market) (s : BncState) : BncState :=
  let remote_id := jsToLower m.id
  let map := s.mapOf c
  if hasKey map (JsKey.str remote_id) then
    binanceReconnectOp (s.withMap c (delKey map (JsKey.obj m)))
  else s

/-- Events a `BinanceClient` emits. -/
inductive BncEvent where
  | connected
  | disconnected
  | reconnected
  | closed
  | trade (t : BncTradeRec)
  | l2snapshot (r : L2Rec)
  | l2update (r : L2Rec)
deriving DecidableEq, Repr

/-- `BinanceClient._close`: only when a socket exists does it close it and
emit `closed`; the debounce timer handle is not touched. -/
def binanceClose (s : BncState) : BncState × List BncEvent :=
  if s.wss then ({ s with wss := false }, [BncEvent.closed])
  else (s, [])

/-- The stream-name suffix for aggregate trades. -/
def aggTradeSuffix : String := "@aggTrade"

/-- The stream-name suffix for depth snapshots. -/
def depth20Suffix : String := "@depth20"

/-- The stream-name suffix for depth diffs. -/
def depthSuffix : String := "@depth"

/-- The stream list `BinanceClient._connect` assembles from the three
subscription maps (each key with its channel suffix) and embeds in the
connection URL. -/
def binanceStreams (s : BncState) : List String :=
  ((strKeys s.tradeSubs).map (fun p => p ++ aggTradeSuffix)
    ++ (strKeys s.l2SnapshotSubs).map (fun p => p ++ depth20Suffix))
    ++ (strKeys s.l2UpdateSubs).map (fun p => p ++ depthSuffix)

/-- `BinanceClient._connect`: a no-op while a socket exists; otherwise opens
a socket on the URL built from the current stream list. -/
def binanceConnect (s : BncState) : BncState :=
  if s.wss then s
  else { s with wss := true, connStreams := binanceStreams s }

/-- The payload of a `<symbol>@depth20` frame: `{lastUpdateId, bids, asks}`
with price/size pairs as JSON strings. -/
structure BncDepthData where
  lastUpdateId : Nat
  bids : List (String × String)
  asks : List (String × String)
deriving DecidableEq, Repr

/-- The payload of a `<symbol>@depth` diff frame: `{s, U, u, b, a}`. -/
structure BncDiffData where
  s : String
  U : Nat
  u : Nat
  b : List (String × String)
  a : List (String × String)
deriving DecidableEq, Repr

/-- The payload of a `<symbol>@aggTrade` frame. -/
structure BncTradeData where
  s : String
  p : String
  q : String
  f : Nat
  T : Nat
  m : Bool
deriving DecidableEq, Repr

/-- The parsed `data` member of an inbound Binance combined-stream frame. -/
inductive BncData where
  | trade (d : BncTradeData)
  | depth (d : BncDepthData)
  | diff (d : BncDiffData)
deriving DecidableEq, Repr

/-- `BinanceClient._constructTradeFromMessage`: looks the market up in the
trade subscriptions by lowercased symbol (a missing market makes the source
throw on `market.base`, embedded as `Except.error`). -/
def binanceConstructTrade (st : BncState) (d : BncTradeData) :
    Except Unit BncTradeRec :=
  match getKey st.tradeSubs (JsKey.str (jsToLower d.s)) with
  | none => Except.error ()
  | some market =>
    Except.ok
      { exchange := "Binance", base := market.base, quote := market.quote,
        tradeId := d.f, unix := d.T,
        side := if d.m then "buy" else "sell",
        price := d.p, amount := d.q }

/-- `BinanceClient._constructLevel2Snapshot`: despite its name the source
instantiates `new Level2Update({...})` from a depth-snapshot frame.  The
market is looked up by the stream prefix in the snapshot subscriptions. -/
def binanceConstructLevel2Snapshot (st : BncState) (stream : String)
    (d : BncDepthData) : Except Unit L2Rec :=
  let remote_id := String.mk (stream.data.takeWhile (fun ch => ch != Char.ofNat 64))
  match getKey st.l2SnapshotSubs (JsKey.str remote_id) with
  | none => Except.error ()
  | some market =>
    Except.ok (L2Rec.upd
      { exchange := "Binance", base := market.base, quote := market.quote,
        sequenceId := some d.lastUpdateId, lastSequenceId := none,
        asks := d.asks.map (fun p => { price := p.1, size := p.2, count := none, metaType := none }),
        bids := d.bids.map (fun p => { price := p.1, size := p.2, count := none, metaType := none }) })

/-- `BinanceClient._constructLevel2Update`: despite its name the source
instantiates `new Level2Snapshot({...})` from a depth-diff frame, with
`sequenceId` the first diff id `U` and `lastSequenceId` the last id `u`. -/
def binanceConstructLevel2Update (st : BncState) (d : BncDiffData) :
    Except Unit L2Rec :=
  let remote_id := jsToLower d.s
  match getKey st.l2UpdateSubs (JsKey.str remote_id) with
  | none => Except.error ()
  | some market =>
    Except.ok (L2Rec.snap
      { exchange := "Binance", base := market.base, quote := market.quote,
        sequenceId := some d.U, lastSequenceId := some d.u,
        asks := d.a.map (fun p => { price := p.1, size := p.2, count := none, metaType := none }),
        bids := d.b.map (fun p => { price := p.1, size := p.2, count := none, metaType := none }) })

/-- `BinanceClient._onMessage`: dispatches on the stream-name suffix; the
three suffix checks are sequential, each emitting its event. -/
def binanceOnMessage (st : BncState) (stream : String) (d : BncData) :
    Except Unit (List BncEvent) := do
  let e1 ←
    if jsEndsWith stream aggTradeSuffix then
      match d with
      | BncData.trade td => (binanceConstructTrade st td).map (fun t => [BncEvent.trade t])
      | _ => Except.error ()
    else Except.ok []
  let e2 ←
    if jsEndsWith stream depth20Suffix then
      match d with
      | BncData.depth dd => (binanceConstructLevel2Snapshot st stream dd).map (fun r => [BncEvent.l2snapshot r])
      | _ => Except.error ()
    else Except.ok []
  let e3 ←
    if jsEndsWith stream depthSuffix then
      match d with
      | BncData.diff ud => (binanceConstructLevel2Update st ud).map (fun r => [BncEvent.l2update r])
      | _ => Except.error ()
    else Except.ok []
  Except.ok ((e1 ++ e2) ++ e3)

/-! ## Debounce timing

`BinanceClient._reconnect` does `clearTimeout(this._reconnectDebounce)`
followed by `setTimeout(..., 100)`: one pending timer, superseded by every
call.  `binanceDebounceFires` runs that discipline over a chronological list
of subscribe/unsubscribe call times and returns the times at which the timer
actually fires (each fire being one `_close(); _connect()` cycle). -/

/-- The debounce window of `BinanceClient._reconnect`, in milliseconds. -/
def debounceMs : Nat := 100

/-- Given the currently pending fire time (if any) and the remaining call
times in chronological order, the list of times the debounced reconnect
timer fires.  A pending timer fires iff its fire time arrives before the
next call re-arms it; a trailing pending timer always fires. -/
def binanceDebounceFires : Option Nat → List Nat → List Nat
  | some tp, [] => [tp]
  | none, [] => []
  | some tp, t :: rest =>
    if tp ≤ t then tp :: binanceDebounceFires (some (t + debounceMs)) rest
    else binanceDebounceFires (some (t + debounceMs)) rest
  | none, t :: rest => binanceDebounceFires (some (t + debounceMs)) rest

/-! ## BittrexClient

Embedding of the Bittrex client (`src/unnamed/part_000`).  The signalr
connection object is a boolean, the Cloudflare handshake cache an
`Option (Except Unit CFMeta)` (the cached promise: resolved metadata or a
cached rejection), the 15-second retry timer of `_onDisconnected` a pending
flag, and the watchdog (`Watcher`, not part of the source tree) an armed
flag. -/

/-- The credential metadata the Cloudflare handshake resolves with. -/
structure CFMeta where
  cookie : String
  userAgent : String
deriving DecidableEq, Repr

/-- Wire calls the Bittrex client issues over the signalr hub. -/
inductive BtxWire where
  | queryState (id : String)
  | subDeltas (id : String)
  | unsubDeltas (id : String)
deriving DecidableEq, Repr

/-- Events a `BittrexClient` emits. -/
inductive BtxEvent where
  | connected
  | disconnected
  | reconnected
  | closed
deriving DecidableEq, Repr

/-- The mutable state of a `BittrexClient`. -/
structure BtxState where
  tradeSubs : List (String × Market)
  l2UpdateSubs : List (String × Market)
  subCount : String → JsNum
  wss : Bool
  watcher : Bool
  reconnectPending : Bool
  cloudflare : Option (Except Unit CFMeta)

/-- A freshly constructed `BittrexClient`. -/
def btxInit : BtxState :=
  { tradeSubs := [], l2UpdateSubs := [], subCount := fun _ => none,
    wss := false, watcher := false, reconnectPending := false,
    cloudflare := none }

/-- The two Bittrex channel kinds (which map `_subscribe`/`_unsubscribe`
receive). -/
inductive BtxChan where
  | trades
  | l2upd
deriving DecidableEq, Repr

/-- The subscription map for a Bittrex channel kind. -/
def BtxState.mapOf (s : BtxState) : BtxChan → List (String × Market)
  | BtxChan.trades => s.tradeSubs
  | BtxChan.l2upd => s.l2UpdateSubs

/-- Replace the subscription map for a Bittrex channel kind. -/
def BtxState.withMap (s : BtxState) : BtxChan → List (String × Market) → BtxState
  | BtxChan.trades, m => { s with tradeSubs := m }
  | BtxChan.l2upd, m => { s with l2UpdateSubs := m }

/-- `BittrexClient._sendSub`: increments the per-market wire reference
count (`(this._subCount[id] || 0) + 1`), returns without wire traffic when
the new count exceeds one, and otherwise issues the snapshot query (only if
the market has a level2 subscription) followed by the delta subscription. -/
def bittrexSendSub (remote_id : String) (st : BtxState) :
    BtxState × List BtxWire :=
  let n : Int := jsOr0 (st.subCount remote_id) + 1
  let st := { st with subCount := fun k => if k = remote_id then some n else st.subCount k }
  if 1 < n then (st, [])
  else
    let q := if hasKey st.l2UpdateSubs remote_id then [BtxWire.queryState remote_id] else []
    (st, q ++ [BtxWire.subDeltas remote_id])

/-- `BittrexClient._sendUnsub`: decrements the wire reference count
(`this._subCount[id] -= 1`; on a missing slot JavaScript yields `NaN`,
embedded as `none`), returns when the slot is still truthy, and otherwise
issues the wire unsubscription. -/
def bittrexSendUnsub (remote_id : String) (st : BtxState) :
    BtxState × List BtxWire :=
  let v : JsNum := match st.subCount remote_id with
    | none => none
    | some x => some (x - 1)
  let st := { st with subCount := fun k => if k = remote_id then v else st.subCount k }
  if jsTruthy v then (st, [])
  else (st, [BtxWire.unsubDeltas remote_id])

/-- `BittrexClient._subscribe(market, map, msg)`: fires `_connect()` (whose
synchronous prefix is a no-op when a socket already exists), then inserts
the market keyed by `market.id` unless present, sending the wire
subscription only while a socket exists. -/
def bittrexSubscribe (c : BtxChan) (m : Market) (st : BtxState) :
    BtxState × List BtxWire :=
  let remote_id := m.id
  if hasKey (st.mapOf c) remote_id then (st, [])
  else
    let st := st.withMap c (setKey (st.mapOf c) remote_id m)
    if st.wss then bittrexSendSub remote_id st else (st, [])

/-- `BittrexClient._unsubscribe(market, map, msg)`: deletes the entry keyed
by `market.id` when present, sending the wire unsubscription only while a
socket exists. -/
def bittrexUnsubscribe (c : BtxChan) (m : Market) (st : BtxState) :
    BtxState × List BtxWire :=
  let remote_id := m.id
  if hasKey (st.mapOf c) remote_id then
    let st := st.withMap c (delKey (st.mapOf c) remote_id)
    if st.wss then bittrexSendUnsub remote_id st else (st, [])
  else (st, [])

/-- `BittrexClient.close(emitEvent)`: stops the watcher, ends and clears the
socket if one exists, and emits `closed` whenever `emitEvent` is set.  The
pending 15-second retry timer (`this._reconnectHandle`) is not cleared. -/
def bittrexClose (emitEvent : Bool) (st : BtxState) :
    BtxState × List BtxEvent :=
  let st := { st with watcher := false, wss := false }
  (st, if emitEvent then [BtxEvent.closed] else [])

/-- `BittrexClient._connect`: a no-op while a socket exists; otherwise the
Cloudflare handshake promise is created once and cached (`env` is the result
a fresh handshake would produce), then awaited — a cached rejection makes
every subsequent attempt fail without a fresh handshake.  Returns the new
state, the number of fresh handshakes performed, and the attempt result. -/
def bittrexConnect (env : Except Unit CFMeta) (st : BtxState) :
    BtxState × Nat × Except Unit Unit :=
  if st.wss then (st, 0, Except.ok ())
  else
    match st.cloudflare with
    | none =>
      match env with
      | Except.error e => ({ st with cloudflare := some (Except.error e) }, 1, Except.error e)
      | Except.ok meta => ({ st with cloudflare := some (Except.ok meta), wss := true }, 1, Except.ok ())
    | some (Except.error e) => (st, 0, Except.error e)
    | some (Except.ok _) => ({ st with wss := true }, 0, Except.ok ())

/-- `BittrexClient.reconnect(emitEvent)`: `close(false)` then `_connect()`,
then the `reconnected` event when requested. -/
def bittrexReconnect (emitEvent : Bool) (env : Except Unit CFMeta)
    (st : BtxState) : BtxState × List BtxEvent :=
  let st := (bittrexClose false st).1
  let st := (bittrexConnect env st).1
  (st, if emitEvent then [BtxEvent.reconnected] else [])

/-- `BittrexClient._onDisconnected`: clears and re-arms the 15-second retry
timer, stops the watcher, and emits `disconnected`. -/
def bittrexOnDisconnected (st : BtxState) : BtxState × List BtxEvent :=
  ({ st with watcher := false, reconnectPending := true }, [BtxEvent.disconnected])

/-- The retry timer armed by `_onDisconnected` firing: it executes
`this.reconnect(false)`.  A no-op when no timer is pending. -/
def bittrexFireRetry (env : Except Unit CFMeta) (st : BtxState) :
    BtxState × List BtxEvent :=
  if st.reconnectPending then
    bittrexReconnect false env { st with reconnectPending := false }
  else (st, [])

/-- One step of the `_onConnected` resubscription loop: `_sendSub` for each
key, wire calls accumulated in order. -/
def bittrexSendSubFold : List String → BtxState → List BtxWire →
    BtxState × List BtxWire
  | [], st, ws => (st, ws)
  | k :: rest, st, ws =>
    let r := bittrexSendSub k st
    bittrexSendSubFold rest r.1 (ws ++ r.2)

/-- The result of `BittrexClient._onConnected`. -/
structure BtxStep where
  s : BtxState
  wires : List BtxWire
  events : List BtxEvent

/-- `BittrexClient._onConnected`: clears the retry timer, emits `connected`,
resets the wire reference counts to `{}`, starts the watcher, and re-issues
`_sendSub` for every key of the trade subscriptions followed by every key of
the level2-update subscriptions. -/
def bittrexOnConnected (st : BtxState) : BtxStep :=
  let st := { st with reconnectPending := false, subCount := fun _ => none, watcher := true }
  let r := bittrexSendSubFold (keysOf st.tradeSubs ++ keysOf st.l2UpdateSubs) st []
  { s := r.1, wires := r.2, events := [BtxEvent.connected] }

/-! ## BitfinexClient

Embedding of `src/src/exchanges/bitfinex/bitfinex-client.js`.  The
subscription maps (`_tradeSubs`, `_level2UpdateSubs`, `_level3UpdateSubs`)
are inherited from `BasicClient` (not part of the source tree) and are plain
string-keyed maps; `_channels` is the ack-populated channel registry keyed by
the server-assigned channel id.  JavaScript numbers in frame payloads are
embedded as integers scaled by `10^8`, so that `x.toFixed(8)` is exact. -/

/-- A channel-registry entry: the `subscribed` ack message itself
(`{chanId, channel, pair, prec}`). -/
structure BfxChanInfo where
  chanId : Nat
  channel : String
  pair : String
  prec : Option String
deriving DecidableEq, Repr

/-- The state of a `BitfinexClient` relevant to inbound dispatch. -/
structure BfxState where
  channels : List (Nat × BfxChanInfo)
  tradeSubs : List (String × Market)
  l2UpdateSubs : List (String × Market)
  l3UpdateSubs : List (String × Market)
deriving Repr

/-- The second element of an inbound Bitfinex array frame. -/
inductive BfxBody where
  | hb
  | tradeMsg (tag : String) (id : Nat) (unix : Nat) (price : Int) (amount : Int)
  | rows (rs : List (Int × Int × Int))
  | point (a b c : Int)
deriving DecidableEq, Repr

/-- An inbound Bitfinex frame: either a `subscribed` acknowledgment object
or an array frame led by a channel id. -/
inductive BfxRaw where
  | ack (info : BfxChanInfo)
  | data (chanId : Nat) (body : BfxBody)
deriving DecidableEq, Repr

/-- Modelled from the spec: the Trade record as constructed by
`BitfinexClient._onTradeMessage` (no side field is supplied). -/
structure BfxTradeRec where
  exchange : String
  base : String
  quote : String
  tradeId : Nat
  unix : Nat
  price : Int
  amount : Int
deriving DecidableEq, Repr

/-- Modelled from the spec: a Level3Point `{orderId, price, size}`. -/
structure L3PointRec where
  orderId : Int
  price : String
  size : String
deriving DecidableEq, Repr

/-- Modelled from the spec: a Level3Snapshot/Level3Update record. -/
structure L3Rec where
  exchange : String
  base : String
  quote : String
  asks : List L3PointRec
  bids : List L3PointRec
deriving DecidableEq, Repr

/-- Events a `BitfinexClient` emits from `_onMessage`. -/
inductive BfxEvent where
  | trade (t : BfxTradeRec)
  | l2snapshot (r : Level2SnapshotRec)
  | l2update (r : Level2UpdateRec)
  | l3snapshot (r : L3Rec)
  | l3update (r : L3Rec)
deriving DecidableEq, Repr

/-- `x.toFixed(8)` for a value embedded as an integer scaled by `10^8`. -/
def toFixed8 (x : Int) : String :=
  let sign := if x < 0 then "-" else ""
  let n := x.natAbs
  let frac := Nat.repr (n % 100000000)
  let pad := String.mk (List.replicate (8 - frac.length) (Char.ofNat 48))
  sign ++ Nat.repr (n / 100000000) ++ "." ++ pad ++ frac

/-- `x.toFixed(0)` for a whole value embedded scaled by `10^8` (the count
column of a Bitfinex book row is a whole number). -/
def toFixed0 (x : Int) : String :=
  let sign := if x < 0 then "-" else ""
  sign ++ Nat.repr (x.natAbs / 100000000)

/-- `BitfinexClient._onTradeMessage`: destructures
`[chanId, , , id, unix, price, amount]`, resolves the market from the trade
subscriptions via the registry pair (a missing market throws, embedded as
`Except.error`), and emits the trade. -/
def bfxOnTradeMessage (st : BfxState) (info : BfxChanInfo) (id unix : Nat)
    (price amount : Int) : Except Unit BfxEvent :=
  match getKey st.tradeSubs info.pair with
  | none => Except.error ()
  | some market =>
    Except.ok (BfxEvent.trade
      { exchange := "Bitfinex", base := market.base, quote := market.quote,
        tradeId := id, unix := unix, price := price, amount := amount })

/-- `BitfinexClient._onLevel2Snapshot`: each row `[price, count, size]`
becomes a point; positive size rows are bids, the rest asks.  No
`sequenceId` is supplied. -/
def bfxOnLevel2Snapshot (st : BfxState) (info : BfxChanInfo)
    (rs : List (Int × Int × Int)) : Except Unit BfxEvent :=
  match getKey st.l2UpdateSubs info.pair with
  | none => Except.error ()
  | some market =>
    let pts := rs.map (fun v =>
      ({ price := toFixed8 v.1, size := toFixed8 (Int.natAbs v.2.2),
         count := some (toFixed0 v.2.1), metaType := none }, decide (0 < v.2.2)))
    Except.ok (BfxEvent.l2snapshot
      { exchange := "Bitfinex", base := market.base, quote := market.quote,
        sequenceId := none, lastSequenceId := none,
        asks := (pts.filter (fun p => !p.2)).map (fun p => p.1),
        bids := (pts.filter (fun p => p.2)).map (fun p => p.1) })

/-- `BitfinexClient._onLevel2Update`: one point `[price, count, size]`;
positive size is a bid, otherwise an ask. -/
def bfxOnLevel2Update (st : BfxState) (info : BfxChanInfo)
    (price count size : Int) : Except Unit BfxEvent :=
  match getKey st.l2UpdateSubs info.pair with
  | none => Except.error ()
  | some market =>
    let pt : L2PointRec :=
      { price := toFixed8 price, size := toFixed8 (Int.natAbs size),
        count := some (toFixed0 count), metaType := none }
    Except.ok (BfxEvent.l2update
      { exchange := "Bitfinex", base := market.base, quote := market.quote,
        sequenceId := none, lastSequenceId := none,
        asks := if 0 < size then [] else [pt],
        bids := if 0 < size then [pt] else [] })

/-- `BitfinexClient._onLevel3Snapshot`: rows `[orderId, price, size]`. -/
def bfxOnLevel3Snapshot (st : BfxState) (info : BfxChanInfo)
    (rs : List (Int × Int × Int)) : Except Unit BfxEvent :=
  match getKey st.l3UpdateSubs info.pair with
  | none => Except.error ()
  | some market =>
    let pts := rs.map (fun v =>
      ({ orderId := v.1, price := toFixed8 v.2.1,
         size := toFixed8 (Int.natAbs v.2.2) }, decide (0 < v.2.2)))
    Except.ok (BfxEvent.l3snapshot
      { exchange := "Bitfinex", base := market.base, quote := market.quote,
        asks := (pts.filter (fun p => !p.2)).map (fun p => p.1),
        bids := (pts.filter (fun p => p.2)).map (fun p => p.1) })

/-- `BitfinexClient._onLevel3Update`: one row `[orderId, price, size]`. -/
def bfxOnLevel3Update (st : BfxState) (info : BfxChanInfo)
    (orderId price size : Int) : Except Unit BfxEvent :=
  match getKey st.l3UpdateSubs info.pair with
  | none => Except.error ()
  | some market =>
    let pt : L3PointRec :=
      { orderId := orderId, price := toFixed8 price,
        size := toFixed8 (Int.natAbs size) }
    Except.ok (BfxEvent.l3update
      { exchange := "Bitfinex", base := market.base, quote := market.quote,
        asks := if 0 < size then [] else [pt],
        bids := if 0 < size then [pt] else [] })

/-- `BitfinexClient._onMessage`: a `subscribed` ack populates the channel
registry; any other frame first resolves its leading channel id in the
registry (returning silently when absent), then drops heartbeats, then
dispatches trades / R0 book (level 3) / book (level 2) frames.  Frame shapes
the source would throw on (for example a book update whose second element is
not a number) are embedded as `Except.error`. -/
def bfxOnMessage (st : BfxState) (raw : BfxRaw) :
    Except Unit (BfxState × List BfxEvent) :=
  match raw with
  | BfxRaw.ack info =>
    Except.ok ({ st with channels := setKey st.channels info.chanId info }, [])
  | BfxRaw.data chanId body =>
    match getKey st.channels chanId with
    | none => Except.ok (st, [])
    | some info =>
      match body with
      | BfxBody.hb => Except.ok (st, [])
      | BfxBody.tradeMsg tag id unix price amount =>
        if info.channel = "trades" then
          if tag = "tu" then
            (bfxOnTradeMessage st info id unix price amount).map (fun e => (st, [e]))
          else Except.ok (st, [])
        else if info.channel = "book" then Except.error ()
        else Except.ok (st, [])
      | BfxBody.rows rs =>
        if info.channel = "trades" then Except.ok (st, [])
        else if info.channel = "book" then
          if info.prec = some "R0" then
            (bfxOnLevel3Snapshot st info rs).map (fun e => (st, [e]))
          else
            (bfxOnLevel2Snapshot st info rs).map (fun e => (st, [e]))
        else Except.ok (st, [])
      | BfxBody.point a b c =>
        if info.channel = "trades" then Except.ok (st, [])
        else if info.channel = "book" then
          if info.prec = some "R0" then
            (bfxOnLevel3Update st info a b c).map (fun e => (st, [e]))
          else
            (bfxOnLevel2Update st info a b c).map (fun e => (st, [e]))
        else Except.ok (st, [])

/-! ## MD5 and the Bittrex trade id

`BittrexClient._getTradeId` derives a trade id by hashing
`` `${ms}:${buysell}:${price}:${amount}` `` with MD5 (node's `crypto`
module).  MD5 is implemented here in full over byte lists (32-bit words as
`Nat` reduced modulo `2^32`). -/

/-- Reduce to a 32-bit word. -/
def m32 (x : Nat) : Nat := x % 4294967296

/-- Bitwise complement of a 32-bit word. -/
def not32 (x : Nat) : Nat := 4294967295 - m32 x

/-- Left-rotation of a 32-bit word by `n < 32` bits. -/
def rotl32 (x n : Nat) : Nat :=
  (x % 2 ^ (32 - n)) * 2 ^ n + x / 2 ^ (32 - n)

/-- The MD5 sine-derived constant table `K`. -/
def md5K : List Nat := [
  3614090360, 3905402710, 606105819, 3250441966, 4118548399, 1200080426, 2821735955, 4249261313,
  1770035416, 2336552879, 4294925233, 2304563134, 1804603682, 4254626195, 2792965006, 1236535329,
  4129170786, 3225465664, 643717713, 3921069994, 3593408605, 38016083, 3634488961, 3889429448,
  568446438, 3275163606, 4107603335, 1163531501, 2850285829, 4243563512, 1735328473, 2368359562,
  4294588738, 2272392833, 1839030562, 4259657740, 2763975236, 1272893353, 4139469664, 3200236656,
  681279174, 3936430074, 3572445317, 76029189, 3654602809, 3873151461, 530742520, 3299628645,
  4096336452, 1126891415, 2878612391, 4237533241, 1700485571, 2399980690, 4293915773, 2240044497,
  1873313359, 4264355552, 2734768916, 1309151649, 4149444226, 3174756917, 718787259, 3951481745]

/-- The MD5 per-round shift table `S`. -/
def md5S : List Nat := [
  7, 12, 17, 22, 7, 12, 17, 22, 7, 12, 17, 22, 7, 12, 17, 22,
  5, 9, 14, 20, 5, 9, 14, 20, 5, 9, 14, 20, 5, 9, 14, 20,
  4, 11, 16, 23, 4, 11, 16, 23, 4, 11, 16, 23, 4, 11, 16, 23,
  6, 10, 15, 21, 6, 10, 15, 21, 6, 10, 15, 21, 6, 10, 15, 21]

/-- The MD5 round mixing function. -/
def md5F (i b c d : Nat) : Nat :=
  if i < 16 then (b &&& c) ||| (not32 b &&& d)
  else if i < 32 then (d &&& b) ||| (not32 d &&& c)
  else if i < 48 then (b ^^^ c) ^^^ d
  else c ^^^ (b ||| not32 d)

/-- The MD5 message-word index for round `i`. -/
def md5G (i : Nat) : Nat :=
  if i < 16 then i
  else if i < 32 then (5 * i + 1) % 16
  else if i < 48 then (3 * i + 5) % 16
  else (7 * i) % 16

/-- One MD5 round over the 16 message words `M` of the current block. -/
def md5Round (M : List Nat) (st : Nat × Nat × Nat × Nat) (i : Nat) :
    Nat × Nat × Nat × Nat :=
  let a := st.1
  let b := st.2.1
  let c := st.2.2.1
  let d := st.2.2.2
  let f := m32 (md5F i b c d + a + md5K.getD i 0 + M.getD (md5G i) 0)
  (d, m32 (b + rotl32 f (md5S.getD i 0)), b, c)

/-- One 512-bit MD5 block: 64 rounds then the Davies–Meyer addition. -/
def md5Chunk (st : Nat × Nat × Nat × Nat) (M : List Nat) :
    Nat × Nat × Nat × Nat :=
  let r := (List.range 64).foldl (md5Round M) st
  (m32 (st.1 + r.1), m32 (st.2.1 + r.2.1),
   m32 (st.2.2.1 + r.2.2.1), m32 (st.2.2.2 + r.2.2.2))

/-- Split a list into consecutive pieces of `n` elements (`fuel` bounds the
recursion; callers pass the list length). -/
def chunkList {α : Type} (n : Nat) : Nat → List α → List (List α)
  | 0, _ => []
  | _, [] => []
  | fuel + 1, bs => bs.take n :: chunkList n fuel (bs.drop n)

/-- The `n` low-order bytes of a number, little-endian. -/
def leBytes (n v : Nat) : List Nat :=
  (List.range n).map (fun i => v / 256 ^ i % 256)

/-- A little-endian 32-bit word from up to four bytes. -/
def md5Word (bs : List Nat) : Nat :=
  bs.getD 0 0 + 256 * bs.getD 1 0 + 65536 * bs.getD 2 0 + 16777216 * bs.getD 3 0

/-- MD5 padding: `0x80`, zeros to 56 mod 64, then the bit length as a
64-bit little-endian quantity. -/
def md5Pad (bs : List Nat) : List Nat :=
  bs ++ [128] ++ List.replicate ((119 - bs.length % 64) % 64) 0
    ++ leBytes 8 (8 * bs.length % 18446744073709551616)

/-- A lowercase hexadecimal digit. -/
def hexDigit (n : Nat) : Char :=
  Char.ofNat (if n < 10 then 48 + n else 87 + n)

/-- A byte as two lowercase hexadecimal characters. -/
def hexByte (b : Nat) : String :=
  String.mk [hexDigit (b / 16 % 16), hexDigit (b % 16)]

/-- The MD5 digest of a byte list, as the lowercase hex string
`hash.digest().toString("hex")` produces. -/
def md5Hex (bs : List Nat) : String :=
  let padded := md5Pad bs
  let blocks := (chunkList 64 padded.length padded).map
    (fun ch => (chunkList 4 64 ch).map md5Word)
  let st := blocks.foldl md5Chunk (1732584193, 4023233417, 2562383102, 271733878)
  String.join (((leBytes 4 st.1 ++ leBytes 4 st.2.1)
    ++ (leBytes 4 st.2.2.1 ++ leBytes 4 st.2.2.2)).map hexByte)

/-- The UTF-8 bytes of an ASCII string (every preimage built by
`_getTradeId` is ASCII). -/
def stringBytes (s : String) : List Nat := s.data.map Char.toNat

/-- The numeric value of a list of decimal digit characters. -/
def digitsVal (cs : List Char) : Nat :=
  cs.foldl (fun a ch => a * 10 + (ch.toNat - 48)) 0

/-- Days since 1970-01-01 of a civil date (valid for dates from 1970 on);
the standard civil-from-days inversion. -/
def daysFromCivil1970 (y m d : Nat) : Nat :=
  let y1 := if m ≤ 2 then y - 1 else y
  let era := y1 / 400
  let yoe := y1 % 400
  let mp := if 2 < m then m - 3 else m + 9
  let doy := (153 * mp + 2) / 5 + d - 1
  let doe := (yoe * 365 + yoe / 4 + doy) - yoe / 100
  (era * 146097 + doe) - 719468

/-- `moment.utc(ts).valueOf()` for the ISO timestamps Bittrex delivers
(`YYYY-MM-DDTHH:MM:SS` with an optional fractional-second part and optional
trailing `Z`): the UTC epoch milliseconds.  Models the external `moment`
library, which parses deterministically; unparsable inputs map to 0. -/
def momentUtcValueOf (ts : String) : Nat :=
  match splitOnChar (Char.ofNat 84) ts.data with
  | [dateCs, timeCs0] =>
    let timeCs := if timeCs0.getLast? = some (Char.ofNat 90) then timeCs0.dropLast else timeCs0
    (match splitOnChar (Char.ofNat 45) dateCs, splitOnChar (Char.ofNat 58) timeCs with
    | [y, mo, d], [h, mi, rest] =>
      let secFrac := match splitOnChar (Char.ofNat 46) rest with
        | [s, f] => (s, f)
        | [s] => (s, [])
        | _ => ([], [])
      let fracMs := digitsVal ((secFrac.2 ++ [Char.ofNat 48, Char.ofNat 48, Char.ofNat 48]).take 3)
      86400000 * daysFromCivil1970 (digitsVal y) (digitsVal mo) (digitsVal d)
        + 3600000 * digitsVal h + 60000 * digitsVal mi
        + 1000 * digitsVal secFrac.1 + fracMs
    | _, _ => 0)
  | _ => 0

/-- A fill object inside an `updateExchangeState` message, with the fields
`_getTradeId` and `_constructTradeFromMessage` read.  `Rate` and `Quantity`
are JavaScript numbers embedded as integers scaled by `10^8` (Bittrex quotes
at eight decimals), so `.toFixed(8)` is exact. -/
structure BtxFill where
  TimeStamp : String
  OrderType : String
  Rate : Int
  Quantity : Int
deriving DecidableEq, Repr

/-- `BittrexClient._getTradeId`: the MD5 hex digest of
`` `${ms}:${buysell}:${price}:${amount}` `` where `ms` is the parsed
timestamp, `buysell` is 1 for BUY fills and 0 otherwise, and price and
amount are the rate and quantity at eight decimals. -/
def bittrexGetTradeId (f : BtxFill) : String :=
  let ms := momentUtcValueOf f.TimeStamp
  let buysell : Nat := if f.OrderType = "BUY" then 1 else 0
  let price := toFixed8 f.Rate
  let amount := toFixed8 f.Quantity
  let preimage := ((Nat.repr ms ++ ":") ++ (Nat.repr buysell ++ ":"))
    ++ ((price ++ ":") ++ amount)
  md5Hex (stringBytes preimage)

/-- The Trade record constructed by
`BittrexClient._constructTradeFromMessage` (the Trade class itself is
modelled from the spec: it copies its fields). -/
structure BtxTradeRec where
  exchange : String
  base : String
  quote : String
  tradeId : String
  unix : Nat
  side : String
  price : String
  amount : String
deriving DecidableEq, Repr

/-- `BittrexClient._constructTradeFromMessage`: resolves the market from the
trade subscriptions (a missing market throws, embedded as `Except.error`)
and builds the normalized trade with the md5-derived id. -/
def bittrexConstructTrade (st : BtxState) (f : BtxFill) (marketName : String) :
    Except Unit BtxTradeRec :=
  match getKey st.tradeSubs marketName with
  | none => Except.error ()
  | some market =>
    Except.ok
      { exchange := "Bittrex", base := market.base, quote := market.quote,
        tradeId := bittrexGetTradeId f,
        unix := momentUtcValueOf f.TimeStamp,
        side := if f.OrderType = "BUY" then "buy" else "sell",
        price := toFixed8 f.Rate, amount := toFixed8 f.Quantity }

/-! ## Demo values used by concrete theorems and witnesses -/

/-- A connected `BittrexClient` with no subscriptions (post-`_onConnected`,
handshake metadata cached). -/
def btxConnectedEmpty : BtxState :=
  { btxInit with
    wss := true, watcher := true,
    cloudflare := some (Except.ok { cookie := "", userAgent := "" }) }

/-- Cloudflare metadata for demo states. -/
def btxDemoMeta : CFMeta := { cookie := "", userAgent := "" }

/-- A demo market. -/
def bncDemoMarket : Market := { id := "BTCUSDT", base := "BTC", quote := "USDT" }

/-- A `BinanceClient` that subscribed `bncDemoMarket` to level2 snapshots and
level2 updates through the real subscribe path (socket not yet open). -/
def bncDemoState : BncState :=
  binanceSubscribe BncChan.l2upd bncDemoMarket
    (binanceSubscribe BncChan.l2snap bncDemoMarket
      (binanceSubscribe BncChan.trades bncDemoMarket bncInit))

/-! ## Claim theorems -/

/-- Claim C3: on the shared-channel Bittrex adapter, with a connected
client, subscribing trades then level2 updates for one market drives the
wire reference count to 2 while sending exactly one wire subscribe (on the
0-to-1 transition); unsubscribing either channel alone (in either order)
drops the count to 1 and sends no wire unsubscribe; unsubscribing the
remaining channel drops the count to 0 and sends exactly one wire
unsubscribe (on the 1-to-0 transition). -/
theorem bittrex_shared_channel_refcount (m : Market) :
    let s0 := btxConnectedEmpty
    let r1 := bittrexSubscribe BtxChan.trades m s0
    let r2 := bittrexSubscribe BtxChan.l2upd m r1.1
    r2.1.subCount m.id = some 2
    ∧ r1.2 = [BtxWire.subDeltas m.id]
    ∧ r2.2 = []
    ∧ (let u1 := bittrexUnsubscribe BtxChan.trades m r2.1
       u1.1.subCount m.id = some 1 ∧ u1.2 = []
       ∧ (let u2 := bittrexUnsubscribe BtxChan.l2upd m u1.1
          u2.1.subCount m.id = some 0 ∧ u2.2 = [BtxWire.unsubDeltas m.id]))
    ∧ (let v1 := bittrexUnsubscribe BtxChan.l2upd m r2.1
       v1.1.subCount m.id = some 1 ∧ v1.2 = []
       ∧ (let v2 := bittrexUnsubscribe BtxChan.trades m v1.1
          v2.1.subCount m.id = some 0 ∧ v2.2 = [BtxWire.unsubDeltas m.id])) := by
  simp [btxConnectedEmpty, btxInit, bittrexSubscribe, bittrexUnsubscribe,
    bittrexSendSub, bittrexSendUnsub, BtxState.mapOf, BtxState.withMap,
    hasKey, setKey, delKey, jsOr0, jsTruthy]

/-- Pointwise behaviour of `bittrexSendSub`: the count of the sent key
becomes `old + 1` (with `undefined || 0` semantics), other counts are
untouched, and the wire subscribe goes out exactly on transitions to a count
of at most one. -/
theorem sendSub_spec (k : String) (st : BtxState) :
    (bittrexSendSub k st).1.subCount k = some (jsOr0 (st.subCount k) + 1)
    ∧ (∀ j, j ≠ k → (bittrexSendSub k st).1.subCount j = st.subCount j)
    ∧ (jsOr0 (st.subCount k) + 1 ≤ 1 →
        BtxWire.subDeltas k ∈ (bittrexSendSub k st).2)
    ∧ (1 < jsOr0 (st.subCount k) + 1 → (bittrexSendSub k st).2 = []) := by
  refine ⟨?_, ?_, ?_, ?_⟩
  · by_cases h : 1 < jsOr0 (st.subCount k) + 1 <;> simp [bittrexSendSub, h]
  · intro j hj
    by_cases h : 1 < jsOr0 (st.subCount k) + 1 <;> simp [bittrexSendSub, h, hj]
  · intro hle
    have h : ¬ 1 < jsOr0 (st.subCount k) + 1 := by omega
    simp [bittrexSendSub, h]
  · intro hgt
    simp [bittrexSendSub, hgt]

/-- Invariant of the `_onConnected` resubscription loop: every market whose
wire reference count is live has had its wire subscribe issued. -/
def SubCountSent (st : BtxState) (ws : List BtxWire) : Prop :=
  ∀ k n, st.subCount k = some n → 1 ≤ n ∧ BtxWire.subDeltas k ∈ ws

/-- `bittrexSendSub` preserves the resubscription invariant. -/
theorem sendSub_inv (k : String) (st : BtxState) (ws : List BtxWire)
    (h : SubCountSent st ws) :
    SubCountSent (bittrexSendSub k st).1 (ws ++ (bittrexSendSub k st).2) := by
  obtain ⟨h1, h2, h3, h4⟩ := sendSub_spec k st
  intro j n hj
  by_cases hjk : j = k
  · subst hjk
    rw [h1] at hj
    injection hj with hn
    subst hn
    cases hc : st.subCount j with
    | none =>
      refine ⟨by simp [hc, jsOr0], List.mem_append_right _ ?_⟩
      exact h3 (by simp [hc, jsOr0])
    | some m =>
      obtain ⟨hm1, hm2⟩ := h j m hc
      exact ⟨by simp [hc, jsOr0]; omega, List.mem_append_left _ hm2⟩
  · rw [h2 j hjk] at hj
    obtain ⟨hm1, hm2⟩ := h j n hj
    exact ⟨hm1, List.mem_append_left _ hm2⟩

/-- `bittrexSendSubFold` preserves the resubscription invariant. -/
theorem sendSubFold_inv (ks : List String) :
    ∀ (st : BtxState) (ws : List BtxWire), SubCountSent st ws →
    SubCountSent (bittrexSendSubFold ks st ws).1 (bittrexSendSubFold ks st ws).2 := by
  induction ks with
  | nil => intro st ws h; simpa [bittrexSendSubFold] using h
  | cons k rest ih =>
    intro st ws h
    simpa [bittrexSendSubFold] using ih _ _ (sendSub_inv k st ws h)

/-- After the resubscription loop, every key that was processed (or whose
count was already live) has a live count slot. -/
theorem sendSubFold_some (ks : List String) :
    ∀ (st : BtxState) (ws : List BtxWire) (k : String),
    (st.subCount k ≠ none ∨ k ∈ ks) →
    (bittrexSendSubFold ks st ws).1.subCount k ≠ none := by
  induction ks with
  | nil =>
    intro st ws k h
    simp only [bittrexSendSubFold]
    rcases h with h | h
    · exact h
    · simp at h
  | cons j rest ih =>
    intro st ws k h
    obtain ⟨h1, h2, _, _⟩ := sendSub_spec j st
    simp only [bittrexSendSubFold]
    apply ih
    by_cases hk : k = j
    · subst hk
      exact Or.inl (by simp [h1])
    · rcases h with h | h
      · exact Or.inl (by rw [h2 k hk]; exact h)
      · rcases List.mem_cons.mp h with h | h
        · exact absurd h hk
        · exact Or.inr h

/-- After `_onConnected` runs, every key of either subscription map has had
its wire subscribe re-issued on the fresh connection. -/
theorem bittrex_onConnected_resubscribes (st : BtxState) (k : String)
    (h : k ∈ keysOf st.tradeSubs ++ keysOf st.l2UpdateSubs) :
    BtxWire.subDeltas k ∈ (bittrexOnConnected st).wires := by
  set st1 : BtxState :=
    { st with reconnectPending := false, subCount := fun _ => none, watcher := true } with hst1
  have hinv : SubCountSent st1 [] := by
    intro j n hj
    rw [hst1] at hj
    simp at hj
  have hsome :=
    sendSubFold_some (keysOf st.tradeSubs ++ keysOf st.l2UpdateSubs) st1 [] k (Or.inr h)
  have hfold :=
    sendSubFold_inv (keysOf st.tradeSubs ++ keysOf st.l2UpdateSubs) st1 [] hinv
  rcases Option.ne_none_iff_exists'.mp hsome with ⟨n, hn⟩
  have hmem := (hfold k n hn).2
  simpa [bittrexOnConnected, hst1] using hmem

/-- Claim C1: whenever a connection is (re)established, the client re-issues
a wire subscription for every entry across all of its subscription sets —
for the RPC-style Bittrex client, `_onConnected` sends a delta subscription
for every key of both subscription maps; for the URL-embedded Binance
client, `_connect` places every subscribed key, with its channel suffix, in
the connection URL stream list. -/
theorem resubscribe_on_reconnect :
    (∀ (st : BtxState) (k : String),
        k ∈ keysOf st.tradeSubs ++ keysOf st.l2UpdateSubs →
        BtxWire.subDeltas k ∈ (bittrexOnConnected st).wires)
    ∧ (∀ (st : BncState) (k : String), st.wss = false →
        (k ∈ strKeys st.tradeSubs →
          k ++ aggTradeSuffix ∈ (binanceConnect st).connStreams)
        ∧ (k ∈ strKeys st.l2SnapshotSubs →
          k ++ depth20Suffix ∈ (binanceConnect st).connStreams)
        ∧ (k ∈ strKeys st.l2UpdateSubs →
          k ++ depthSuffix ∈ (binanceConnect st).connStreams)) := by
  constructor
  · exact bittrex_onConnected_resubscribes
  · intro st k hw
    have hcs : (binanceConnect st).connStreams = binanceStreams st := by
      simp [binanceConnect, hw]
    refine ⟨fun hk => ?_, fun hk => ?_, fun hk => ?_⟩ <;> rw [hcs] <;> unfold binanceStreams
    · exact List.mem_append_left _ (List.mem_append_left _ (List.mem_map_of_mem _ hk))
    · exact List.mem_append_left _ (List.mem_append_right _ (List.mem_map_of_mem _ hk))
    · exact List.mem_append_right _ (List.mem_map_of_mem _ hk)

/-- A connected Bittrex demo client with one trade and one level2
subscription. -/
def btxDemoSubbed : BtxState :=
  { btxConnectedEmpty with
    tradeSubs := [("BTC-ETH", { id := "BTC-ETH", base := "ETH", quote := "BTC" })],
    l2UpdateSubs := [("BTC-XLM", { id := "BTC-XLM", base := "XLM", quote := "BTC" })] }

/-- Witness for claim C1 at concrete states: the Bittrex reconnect re-sends
the subscription for a subscribed market, and the Binance connection URL
stream list carries the subscribed key. -/
theorem resubscribe_on_reconnect_witness :
    BtxWire.subDeltas "BTC-ETH" ∈ (bittrexOnConnected btxDemoSubbed).wires
    ∧ "btcusdt" ++ aggTradeSuffix ∈ (binanceConnect bncDemoState).connStreams :=
  ⟨resubscribe_on_reconnect.1 btxDemoSubbed "BTC-ETH" (by decide),
   (resubscribe_on_reconnect.2 bncDemoState "btcusdt" rfl).1 (by decide)⟩

/-- Successive debounced calls: the relation between consecutive call times
when every call lands inside the previous call's debounce window. -/
def debounceRel (a b : Nat) : Prop := a ≤ b ∧ b < a + debounceMs

/-- A pending timer armed by the head call never fires before the next
in-window call supersedes it, so only the last window elapses. -/
theorem debounceFires_aux (rest : List Nat) :
    ∀ t : Nat, List.Chain' debounceRel (t :: rest) →
    binanceDebounceFires (some (t + debounceMs)) rest
      = [(t :: rest).getLast (List.cons_ne_nil t rest) + debounceMs] := by
  induction rest with
  | nil => intro t _; simp [binanceDebounceFires]
  | cons t1 rest1 ih =>
    intro t hch
    rw [List.chain'_cons] at hch
    obtain ⟨⟨hle, hlt⟩, hch1⟩ := hch
    have hnf : ¬ t + debounceMs ≤ t1 := by omega
    rw [List.getLast_cons (List.cons_ne_nil t1 rest1)]
    simpa [binanceDebounceFires, hnf] using ih t1 hch1

/-- Claim C2: for any nonempty sequence of subscribe/unsubscribe calls in
which each later call arrives within the ≈100 ms debounce window of the
previous one, the debounced reconnect timer of `BinanceClient._reconnect`
fires exactly once — each later call cancels and reschedules the single
pending timer — and the one close-and-reconnect cycle runs when the last
call's window elapses. -/
theorem binance_debounce_single_reconnect (t : Nat) (rest : List Nat)
    (h : List.Chain' debounceRel (t :: rest)) :
    binanceDebounceFires none (t :: rest)
      = [(t :: rest).getLast (List.cons_ne_nil t rest) + debounceMs] := by
  simpa [binanceDebounceFires] using debounceFires_aux rest t h

/-- Witness for claim C2: three calls at 0 ms, 50 ms and 120 ms (each within
100 ms of the previous) produce exactly one reconnect cycle, at 220 ms. -/
theorem binance_debounce_single_reconnect_witness :
    binanceDebounceFires none [0, 50, 120] = [220] := by
  have h : List.Chain' debounceRel [0, 50, 120] := by
    simp [List.chain'_cons, debounceRel, debounceMs]
  simpa using binance_debounce_single_reconnect 0 [50, 120] h

/-- The depth-snapshot frame payload used as claim C4's failing input. -/
def bncSnapMsgData : BncDepthData :=
  { lastUpdateId := 100,
    bids := [("0.00240000", "10.00000000")],
    asks := [("0.00250000", "5.00000000")] }

/-- The depth-diff frame payload used as claim C4's failing input. -/
def bncDiffMsgData : BncDiffData :=
  { s := "BTCUSDT", U := 101, u := 105,
    b := [("0.00240000", "11.00000000")],
    a := [("0.00250000", "4.00000000")] }

/-- Claim C4 (code bug): for a subscribed market, the inbound depth-snapshot
frame is classified by `_onMessage` into the `l2snapshot` event, but the
record `_constructLevel2Snapshot` builds for it is a `Level2Update`
instance; symmetrically the depth-diff frame's record from
`_constructLevel2Update` is a `Level2Snapshot` instance.  The two
constructors instantiate each other's record class. -/
theorem binance_l2_record_types_swapped :
    (binanceConstructLevel2Snapshot bncDemoState "btcusdt@depth20" bncSnapMsgData).map L2Rec.isUpd
      = Except.ok true
    ∧ (binanceConstructLevel2Update bncDemoState bncDiffMsgData).map L2Rec.isSnap
      = Except.ok true
    ∧ binanceOnMessage bncDemoState "btcusdt@depth20" (BncData.depth bncSnapMsgData)
      = (binanceConstructLevel2Snapshot bncDemoState "btcusdt@depth20" bncSnapMsgData).map
          (fun r => [BncEvent.l2snapshot r])
    ∧ binanceOnMessage bncDemoState "btcusdt@depth" (BncData.diff bncDiffMsgData)
      = (binanceConstructLevel2Update bncDemoState bncDiffMsgData).map
          (fun r => [BncEvent.l2update r]) := by
  refine ⟨rfl, rfl, rfl, rfl⟩

/-- The demo client after `subscribeTrades(bncDemoMarket)`. -/
def bncAfterSubTrades : BncState :=
  binanceSubscribe BncChan.trades bncDemoMarket bncInit

/-- The demo client after the subsequent
`unsubscribeTrades(bncDemoMarket)`. -/
def bncAfterUnsubTrades : BncState :=
  binanceUnsubscribe BncChan.trades bncDemoMarket bncAfterSubTrades

/-- Claim C5 (code bug): `BinanceClient._unsubscribe` takes the present
branch for a subscribed market but passes the `Market` object, not the
string key, to `Map.delete`, so the subscription-set entry survives the
unsubscribe: the wire key is still present afterwards and the map is
unchanged. -/
theorem binance_unsubscribe_leaves_entry :
    hasKey bncAfterSubTrades.tradeSubs (JsKey.str "btcusdt") = true
    ∧ bncAfterUnsubTrades.tradeSubs = bncAfterSubTrades.tradeSubs
    ∧ hasKey bncAfterUnsubTrades.tradeSubs (JsKey.str "btcusdt") = true := by
  refine ⟨rfl, rfl, rfl⟩

/-- Claim C6 counterexample: `close()` on a never-connected Binance client
with zero subscriptions emits no `closed` event at all (not exactly one),
and a second `close()` on a fresh Bittrex client emits `closed` again (not
a no-op). -/
theorem close_once_counterexample :
    (binanceClose bncInit).2.length ≠ 1
    ∧ (bittrexClose true (bittrexClose true btxInit).1).2 ≠ [] := by
  refine ⟨by decide, by decide⟩

/-- Claim C6 (amended): Binance `close()` emits `closed` exactly when a live
socket exists — never on a never-connected client — and a second `close()`
emits nothing further; Bittrex `close()` with its default `emitEvent = true`
emits `closed` on every call, including repeated calls. -/
theorem close_emission_behavior (sb : BncState) (st : BtxState) :
    (binanceClose sb).2 = (if sb.wss then [BncEvent.closed] else [])
    ∧ (binanceClose (binanceClose sb).1).2 = []
    ∧ (bittrexClose true st).2 = [BtxEvent.closed] := by
  cases hsb : sb.wss <;> simp [binanceClose, bittrexClose, hsb]

/-- Claim C7 counterexample: after a disconnect arms the 15-second retry
timer, `close()` completes with the timer still pending; when it fires it
reconnects (the socket reopens) and the subsequent `_onConnected` emits
`connected` — an event after `close()` has completed. -/
theorem close_leaves_retry_timer_armed :
    let s1 := (bittrexOnDisconnected btxConnectedEmpty).1
    let s2 := (bittrexClose true s1).1
    s2.reconnectPending = true
    ∧ (bittrexFireRetry (Except.ok btxDemoMeta) s2).1.wss = true
    ∧ (bittrexOnConnected (bittrexFireRetry (Except.ok btxDemoMeta) s2).1).events
        = [BtxEvent.connected] := by
  refine ⟨rfl, rfl, rfl⟩

/-- Claim C7 (amended): `close()` stops the watchdog and tears down the
socket but cancels neither the Bittrex retry timer armed by
`_onDisconnected` nor the Binance debounced-reconnect timer; a timer armed
before `close()` therefore survives it and can reconnect and emit events
afterwards. -/
theorem close_does_not_cancel_timers (e : Bool) (st : BtxState) (sb : BncState) :
    (bittrexClose e st).1.reconnectPending = st.reconnectPending
    ∧ (bittrexClose e st).1.watcher = false
    ∧ (bittrexClose e st).1.wss = false
    ∧ (binanceClose sb).1.reconnectDebounce = sb.reconnectDebounce := by
  cases hsb : sb.wss <;> simp [bittrexClose, binanceClose, hsb]

/-- Claim C8 counterexample: after one failed Cloudflare handshake, a later
connect trigger — in an environment where a fresh handshake would now
succeed — performs zero fresh handshakes, is rejected from the cached
rejection, and leaves the client unconnected. -/
theorem handshake_failure_cached_counterexample :
    let s1 := (bittrexConnect (Except.error ()) btxInit).1
    s1.cloudflare = some (Except.error ())
    ∧ (bittrexConnect (Except.ok btxDemoMeta) s1).2.1 = 0
    ∧ (bittrexConnect (Except.ok btxDemoMeta) s1).2.2 = Except.error ()
    ∧ (bittrexConnect (Except.ok btxDemoMeta) s1).1.wss = false := by
  refine ⟨rfl, rfl, rfl, rfl⟩

/-- Claim C8 (amended): a failed handshake rejects that connect attempt and
the rejection is cached in `this._cloudflare`; every subsequent connect
trigger then fails from the cache without performing a fresh handshake (and
without backoff) — a fresh handshake happens only when the cache was never
populated. -/
theorem handshake_failure_stays_cached (st : BtxState)
    (env : Except Unit CFMeta) (hw : st.wss = false) :
    (st.cloudflare = none →
      bittrexConnect (Except.error ()) st
        = ({ st with cloudflare := some (Except.error ()) }, 1, Except.error ()))
    ∧ (st.cloudflare = some (Except.error ()) →
      bittrexConnect env st = (st, 0, Except.error ())) := by
  constructor <;> intro hc <;> simp [bittrexConnect, hw, hc]

/-- Witness for claim C8 at concrete states: the first failed handshake is
cached; the second connect attempt fails from the cache without a fresh
handshake. -/
theorem handshake_failure_stays_cached_witness :
    bittrexConnect (Except.error ()) btxInit
      = ({ btxInit with cloudflare := some (Except.error ()) }, 1, Except.error ())
    ∧ bittrexConnect (Except.ok btxDemoMeta)
        { btxInit with cloudflare := some (Except.error ()) }
      = ({ btxInit with cloudflare := some (Except.error ()) }, 0, Except.error ()) :=
  ⟨(handshake_failure_stays_cached btxInit (Except.error ()) rfl).1 rfl,
   (handshake_failure_stays_cached { btxInit with cloudflare := some (Except.error ()) }
      (Except.ok btxDemoMeta) rfl).2 rfl⟩

/-- Claim C9: for any inbound Bitfinex frame that is not a `subscribed`
acknowledgment, if its leading channel id has no registry entry or the
frame is a heartbeat, `_onMessage` returns with the state unchanged and no
event emitted. -/
theorem bitfinex_ignores_hb_and_unknown_channel (s : BfxState) (cid : Nat)
    (body : BfxBody)
    (h : getKey s.channels cid = none ∨ body = BfxBody.hb) :
    bfxOnMessage s (BfxRaw.data cid body) = Except.ok (s, []) := by
  rcases h with h | h
  · simp [bfxOnMessage, h]
  · subst h
    cases hg : getKey s.channels cid <;> simp [bfxOnMessage, hg]

/-- A Bitfinex demo state with one registered trades channel. -/
def bfxDemoState : BfxState :=
  { channels := [(5, { chanId := 5, channel := "trades", pair := "BTCUSD", prec := none })],
    tradeSubs := [], l2UpdateSubs := [], l3UpdateSubs := [] }

/-- Witness for claim C9 at concrete frames: a heartbeat on a registered
channel and a data frame on an unregistered channel are both dropped with
no state change. -/
theorem bitfinex_ignores_hb_and_unknown_channel_witness :
    bfxOnMessage bfxDemoState (BfxRaw.data 5 BfxBody.hb) = Except.ok (bfxDemoState, [])
    ∧ bfxOnMessage bfxDemoState (BfxRaw.data 9 (BfxBody.point 1 2 3))
        = Except.ok (bfxDemoState, []) :=
  ⟨bitfinex_ignores_hb_and_unknown_channel bfxDemoState 5 BfxBody.hb (Or.inr rfl),
   bitfinex_ignores_hb_and_unknown_channel bfxDemoState 9 (BfxBody.point 1 2 3) (Or.inl rfl)⟩

/-- Claim C10: the Bittrex trade id is a deterministic pure function of the
fill's timestamp, order type, rate at eight decimals and quantity at eight
decimals: any two fills agreeing on those four fields receive the identical
md5-derived id, which therefore carries no exchange-assigned uniqueness. -/
theorem bittrex_tradeId_deterministic (f1 f2 : BtxFill)
    (ht : f1.TimeStamp = f2.TimeStamp) (ho : f1.OrderType = f2.OrderType)
    (hr : f1.Rate = f2.Rate) (hq : f1.Quantity = f2.Quantity) :
    bittrexGetTradeId f1 = bittrexGetTradeId f2 := by
  cases f1
  cases f2
  simp_all

/-- A demo fill. -/
def btxDemoFillA : BtxFill :=
  { TimeStamp := "2018-04-13T12:31:20", OrderType := "BUY",
    Rate := 7120000, Quantity := 50000000 }

/-- A second fill occurrence with the same four field values. -/
def btxDemoFillB : BtxFill :=
  { TimeStamp := "2018-04-13T12:31:20", OrderType := "BUY",
    Rate := 7120000, Quantity := 50000000 }

/-- Witness for claim C10 at concrete fills: two fills with equal
timestamp, order type, rate and quantity receive the identical trade id. -/
theorem bittrex_tradeId_deterministic_witness :
    bittrexGetTradeId btxDemoFillA = bittrexGetTradeId btxDemoFillB :=
  bittrex_tradeId_deterministic btxDemoFillA btxDemoFillB rfl rfl rfl rfl

/-- Sanity anchor for the MD5 embedding: the RFC 1321 test vector. -/
theorem md5Hex_abc :
    md5Hex (stringBytes "abc") = "900150983cd24fb0d6963f7d28e17f72" := rfl

/-- Sanity anchor for the trade-id pipeline: the concrete digest of the
demo fill (timestamp parsing, fixed-point rendering and MD5 together),
matching `md5("1523622680000:1:0.07120000:0.50000000")`. -/
theorem bittrexGetTradeId_demo :
    bittrexGetTradeId btxDemoFillA = "61f637dcf21e77bbb4e0abc3722dc8f0" := rfl
